import Mathlib

/-!
Verification of the WGT shot-calculator core (src/main.py).

The two core functions are `calculate_adjusted_shot` and
`suggest_club_and_percentage`.  Python floats are embedded as rationals
(the spec treats the arithmetic as exact), and the transcendental
functions of the `math` module (`radians`, `cos`, `sin`) are abstracted
as an explicit record of functions, since the program only composes
their results arithmetically.  The dictionary lookups of the source are
embedded as association-list lookups returning `Option`, so the
`KeyError` a missing club raises in Python appears as `none`.
-/

namespace WGTCalc

/-- Record of the `math` module functions the source calls; the program
treats them as opaque real-valued functions, so the embedding abstracts
them. -/
structure MathFns where
  radians : ℚ → ℚ
  cos : ℚ → ℚ
  sin : ℚ → ℚ

/-- Table `CLUB_FACTORS` from src/main.py lines 6-22, in insertion
order: club name ↦ (elevation factor, wind factor). -/
def CLUB_FACTORS : List (String × ℚ × ℚ) :=
  [("Driver", (0.25, 0.08)),
   ("3-Wood", (0.3, 0.09)),
   ("5-Wood", (0.35, 0.1)),
   ("Hybrid", (0.38, 0.11)),
   ("3-Iron", (0.4, 0.12)),
   ("4-Iron", (0.42, 0.13)),
   ("5-Iron", (0.44, 0.14)),
   ("6-Iron", (0.46, 0.15)),
   ("7-Iron", (0.48, 0.16)),
   ("8-Iron", (0.5, 0.17)),
   ("9-Iron", (0.52, 0.18)),
   ("Pitching Wedge", (0.54, 0.19)),
   ("Gap Wedge", (0.56, 0.2)),
   ("Sand Wedge", (0.58, 0.21)),
   ("Lob Wedge", (0.6, 0.22))]

/-- Table `CLUB_DISTANCES` from src/main.py lines 34-48, in insertion
order: club name ↦ baseline carry distance in yards. -/
def CLUB_DISTANCES : List (String × ℚ) :=
  [("Driver", 280),
   ("3-Wood", 240),
   ("Hybrid", 225),
   ("3-Iron", 228),
   ("4-Iron", 212),
   ("5-Iron", 197),
   ("6-Iron", 181),
   ("7-Iron", 165),
   ("8-Iron", 149),
   ("9-Iron", 133),
   ("Pitching Wedge", 110),
   ("Sand Wedge", 105),
   ("Lob Wedge", 80)]

/-- Insertion of an entry into a list already sorted by baseline
distance. -/
def insertByDistance (x : String × ℚ) : List (String × ℚ) → List (String × ℚ)
  | [] => [x]
  | y :: ys => if y.2 ≤ x.2 then y :: insertByDistance x ys else x :: y :: ys

/-- Sorting by baseline distance, embedding
`sorted(CLUB_DISTANCES.items(), key=lambda item: item[1])` of
src/main.py line 51.  All 13 baselines are distinct, so any sort by the
second component produces the same list as Python's stable sort. -/
def sortByDistance : List (String × ℚ) → List (String × ℚ)
  | [] => []
  | x :: xs => insertByDistance x (sortByDistance xs)

/-- `sorted_clubs` of src/main.py line 51. -/
def sorted_clubs : List (String × ℚ) := sortByDistance CLUB_DISTANCES

/-- The loop `for i, (club, distance) in enumerate(sorted_clubs)` of
src/main.py lines 53-60.  `none` means the loop fell through without
returning.  The source's guard `i < len(sorted_clubs) - 1` (a next entry
exists) corresponds to the tail being nonempty, and `sorted_clubs[i + 1]`
is the head of the tail. -/
def scanClubs (adjusted_distance : ℚ) : List (String × ℚ) → Option (String × ℚ)
  | [] => none
  | (club, distance) :: rest =>
    if adjusted_distance ≤ distance then
      let percentage := adjusted_distance / distance * 100
      match rest with
      | (next_club, next_distance) :: _ =>
        if 100 < percentage then
          some (next_club, adjusted_distance / next_distance * 100)
        else
          some (club, percentage)
      | [] => some (club, percentage)
    else
      scanClubs adjusted_distance rest

/-- `suggest_club_and_percentage` of src/main.py lines 23-63.  The
fallback reads `sorted_clubs[-1]`; the table is a nonempty constant, so
the `getLastD` default is never used. -/
def suggest_club_and_percentage (adjusted_distance : ℚ) : String × ℚ :=
  match scanClubs adjusted_distance sorted_clubs with
  | some result => result
  | none =>
    let last := sorted_clubs.getLastD ("", 0)
    (last.1, adjusted_distance / last.2 * 100)

/-- `calculate_adjusted_shot` of src/main.py lines 75-110.  The two
dictionary subscripts on `CLUB_FACTORS` raise `KeyError` for an unknown
club; here the lookup failure propagates as `none`. -/
def calculate_adjusted_shot (M : MathFns)
    (base_distance elevation wind_speed wind_angle_deg : ℚ)
    (club : String) : Option (ℚ × ℚ) :=
  match CLUB_FACTORS.lookup club with
  | none => none
  | some factors =>
    let elevation_factor := factors.1
    let wind_factor := factors.2
    let elevation_adjustment := elevation * 0.33 * elevation_factor
    let wind_angle_rad := M.radians wind_angle_deg
    let effective_wind_speed := wind_speed * M.cos wind_angle_rad
    let wind_adjustment := effective_wind_speed * wind_factor
    let adjusted_distance := base_distance + elevation_adjustment + wind_adjustment
    let lateral_wind_speed := wind_speed * M.sin wind_angle_rad
    let lateral_adjustment := lateral_wind_speed * wind_factor
    some (adjusted_distance, lateral_adjustment)

/-- The first entry of the list whose baseline is at least the adjusted
distance, paired with the remaining entries after it (so the head of the
returned tail is the "next club" of the source's lookahead, and a
nonempty tail is the source's `i < len(sorted_clubs) - 1`). -/
def firstMatch (adjusted_distance : ℚ) : List (String × ℚ) →
    Option ((String × ℚ) × List (String × ℚ))
  | [] => none
  | e :: rest =>
    if adjusted_distance ≤ e.2 then some (e, rest)
    else firstMatch adjusted_distance rest

/-- The edge-case branch of src/main.py lines 56-59 fires on an input:
the scan's first match has percentage over 100 while a next (longer)
entry exists. -/
def edgeCaseFired (adjusted_distance : ℚ) : Prop :=
  ∃ e rest, firstMatch adjusted_distance sorted_clubs = some (e, rest) ∧
    rest ≠ [] ∧ 100 < adjusted_distance / e.2 * 100

theorem sorted_clubs_eq : sorted_clubs =
    [("Lob Wedge", 80), ("Sand Wedge", 105), ("Pitching Wedge", 110),
     ("9-Iron", 133), ("8-Iron", 149), ("7-Iron", 165), ("6-Iron", 181),
     ("5-Iron", 197), ("4-Iron", 212), ("Hybrid", 225), ("3-Iron", 228),
     ("3-Wood", 240), ("Driver", 280)] := by decide

theorem clubs_pos : ∀ e ∈ sorted_clubs, (0 : ℚ) < e.2 := by decide

theorem insertByDistance_perm (x : String × ℚ) :
    ∀ l : List (String × ℚ), (insertByDistance x l).Perm (x :: l)
  | [] => List.Perm.refl _
  | y :: ys => by
    by_cases h : y.2 ≤ x.2
    · simpa [insertByDistance, h] using
        ((insertByDistance_perm x ys).cons y).trans (List.Perm.swap x y ys)
    · simp [insertByDistance, h]

theorem sortByDistance_perm : ∀ l : List (String × ℚ), (sortByDistance l).Perm l
  | [] => List.Perm.refl _
  | x :: xs =>
    (insertByDistance_perm x (sortByDistance xs)).trans
      ((sortByDistance_perm xs).cons x)

theorem sorted_clubs_perm : sorted_clubs.Perm CLUB_DISTANCES :=
  sortByDistance_perm CLUB_DISTANCES

theorem firstMatch_eq_some (adj : ℚ) :
    ∀ (l : List (String × ℚ)) (e : String × ℚ) (rest : List (String × ℚ)),
      firstMatch adj l = some (e, rest) → adj ≤ e.2 ∧ e ∈ l := by
  intro l
  induction l with
  | nil => intro e rest h; exact absurd h (by simp [firstMatch])
  | cons hd tl ih =>
    intro e rest h
    by_cases hle : adj ≤ hd.2
    · simp [firstMatch, hle] at h
      rcases h with ⟨rfl, rfl⟩
      exact ⟨hle, List.mem_cons_self _ _⟩
    · simp only [firstMatch, if_neg hle] at h
      obtain ⟨h1, h2⟩ := ih e rest h
      exact ⟨h1, List.mem_cons_of_mem _ h2⟩

theorem firstMatch_eq_none (adj : ℚ) :
    ∀ l : List (String × ℚ), firstMatch adj l = none ↔ ∀ e ∈ l, ¬ adj ≤ e.2 := by
  intro l
  induction l with
  | nil => simp [firstMatch]
  | cons hd tl ih =>
    constructor
    · intro h
      by_cases hle : adj ≤ hd.2
      · exact absurd h (by simp [firstMatch, hle])
      · simp only [firstMatch, if_neg hle] at h
        intro e he
        rcases List.mem_cons.mp he with rfl | he2
        · exact hle
        · exact ih.mp h e he2
    · intro h
      have hle : ¬ adj ≤ hd.2 := h hd (List.mem_cons_self _ _)
      simp only [firstMatch, if_neg hle]
      exact ih.mpr fun e he => h e (List.mem_cons_of_mem _ he)

theorem scanClubs_eq_firstMatch (adj : ℚ) :
    ∀ l : List (String × ℚ), (∀ e ∈ l, (0 : ℚ) < e.2) →
      scanClubs adj l =
        (firstMatch adj l).map fun p => (p.1.1, adj / p.1.2 * 100) := by
  intro l
  induction l with
  | nil => intro _; rfl
  | cons hd tl ih =>
    intro h
    obtain ⟨c, d⟩ := hd
    have hd0 : (0 : ℚ) < d := h (c, d) (List.mem_cons_self _ _)
    by_cases hle : adj ≤ d
    · have hpct : ¬ (100 : ℚ) < adj / d * 100 := by
        have h1 : adj / d ≤ 1 := (div_le_one hd0).mpr hle
        nlinarith
      cases tl with
      | nil => simp [scanClubs, firstMatch, hle]
      | cons e2 tl2 =>
        obtain ⟨c2, d2⟩ := e2
        simp [scanClubs, firstMatch, hle, hpct]
    · have ihh := ih (fun e he => h e (List.mem_cons_of_mem _ he))
      simp [scanClubs, firstMatch, hle, ihh]

theorem suggest_eq_of_firstMatch (adj : ℚ) (e : String × ℚ)
    (rest : List (String × ℚ))
    (h : firstMatch adj sorted_clubs = some (e, rest)) :
    suggest_club_and_percentage adj = (e.1, adj / e.2 * 100) := by
  simp [suggest_club_and_percentage,
    scanClubs_eq_firstMatch adj sorted_clubs clubs_pos, h]

theorem suggest_eq_fallback (adj : ℚ)
    (h : firstMatch adj sorted_clubs = none) :
    suggest_club_and_percentage adj = ("Driver", adj / 280 * 100) := by
  unfold suggest_club_and_percentage
  rw [scanClubs_eq_firstMatch adj sorted_clubs clubs_pos, h, sorted_clubs_eq]
  rfl

theorem firstMatch_of_le (adj : ℚ) (h : adj ≤ 280) :
    ∃ e rest, firstMatch adj sorted_clubs = some (e, rest) := by
  rcases hfm : firstMatch adj sorted_clubs with _ | ⟨e, rest⟩
  · exfalso
    have := (firstMatch_eq_none adj sorted_clubs).mp hfm ("Driver", 280)
      (by rw [sorted_clubs_eq]; decide)
    exact this h
  · exact ⟨e, rest, rfl⟩

theorem lookup_eq_none_iff {β : Type} (a : String) :
    ∀ l : List (String × β), l.lookup a = none ↔ a ∉ l.map Prod.fst := by
  intro l
  induction l with
  | nil => simp
  | cons hd tl ih =>
    obtain ⟨k, v⟩ := hd
    by_cases h : a = k
    · subst h
      simp [List.lookup]
    · have hbeq : (a == k) = false := beq_eq_false_iff_ne.mpr h
      have hstep : List.lookup a ((k, v) :: tl) = List.lookup a tl := by
        simp [List.lookup, hbeq]
      rw [hstep, ih, List.map_cons]
      simp [h]

theorem suggest_300 :
    suggest_club_and_percentage 300 = ("Driver", 750 / 7) := by
  have hn : firstMatch (300 : ℚ) sorted_clubs = none := by
    rw [sorted_clubs_eq]
    norm_num [firstMatch]
  rw [suggest_eq_fallback 300 hn]
  norm_num

/-- C1: for every club in the factor table (so the lookup succeeds with
factors `(ef, wf)`), `calculate_adjusted_shot` returns exactly the pair
(base + elevation·0.33·ef + windSpeed·cos(radians θ)·wf,
windSpeed·sin(radians θ)·wf), with no rounding applied inside the
function: the result is the exact rational combination of the inputs and
of the values of the math functions. -/
theorem claim_adjust_formula (M : MathFns)
    (base elevation wind_speed wind_angle_deg : ℚ) (club : String)
    (ef wf : ℚ) (h : CLUB_FACTORS.lookup club = some (ef, wf)) :
    calculate_adjusted_shot M base elevation wind_speed wind_angle_deg club =
      some (base + elevation * 0.33 * ef +
              wind_speed * M.cos (M.radians wind_angle_deg) * wf,
            wind_speed * M.sin (M.radians wind_angle_deg) * wf) := by
  simp [calculate_adjusted_shot, h]

/-- Witness for C1: the formula evaluated for the Driver with the
identity in place of the math functions. -/
theorem claim_adjust_formula_app :
    CLUB_FACTORS.lookup "Driver" = some (0.25, 0.08) ∧
    calculate_adjusted_shot ⟨id, id, id⟩ 100 30 10 0 "Driver" =
      some (100 + 30 * 0.33 * 0.25 + 10 * id (id 0) * 0.08,
            10 * id (id 0) * 0.08) := by
  have h : CLUB_FACTORS.lookup "Driver" = some (0.25, 0.08) := by
    simp [CLUB_FACTORS, List.lookup]
  exact ⟨h, claim_adjust_formula ⟨id, id, id⟩ 100 30 10 0 "Driver" 0.25 0.08 h⟩

/-- C6: `calculate_adjusted_shot` fails (returns `none`, the embedding of
the `KeyError` raised by the dictionary subscript — an explicit signal,
never a silent default result) if and only if the club is not a key of
`CLUB_FACTORS`; for every club in the table it returns a numeric
result. -/
theorem claim_unknown_club (M : MathFns) (b e w θ : ℚ) (club : String) :
    (calculate_adjusted_shot M b e w θ club = none ↔
      club ∉ CLUB_FACTORS.map Prod.fst) ∧
    (club ∈ CLUB_FACTORS.map Prod.fst →
      ∃ r, calculate_adjusted_shot M b e w θ club = some r) := by
  have hnone : calculate_adjusted_shot M b e w θ club = none ↔
      CLUB_FACTORS.lookup club = none := by
    rcases hl : CLUB_FACTORS.lookup club with _ | f
    · simp [calculate_adjusted_shot, hl]
    · simp [calculate_adjusted_shot, hl]
  constructor
  · rw [hnone]
    exact lookup_eq_none_iff club CLUB_FACTORS
  · intro hmem
    rcases hl : CLUB_FACTORS.lookup club with _ | f
    · exact absurd ((lookup_eq_none_iff club CLUB_FACTORS).mp hl)
        (not_not_intro hmem)
    · refine ⟨(b + e * 0.33 * f.1 + w * M.cos (M.radians θ) * f.2,
        w * M.sin (M.radians θ) * f.2), ?_⟩
      simp [calculate_adjusted_shot, hl]

/-- Witness for C6: the Driver (a key) yields a numeric result, and for
the unknown "Putter" the failure is characterised by the iff. -/
theorem claim_unknown_club_app :
    ("Driver" ∈ CLUB_FACTORS.map Prod.fst ∧
      ∃ r, calculate_adjusted_shot ⟨id, id, id⟩ 100 0 0 0 "Driver" = some r) ∧
    (calculate_adjusted_shot ⟨id, id, id⟩ 100 0 0 0 "Putter" = none ↔
      "Putter" ∉ CLUB_FACTORS.map Prod.fst) := by
  have hm : "Driver" ∈ CLUB_FACTORS.map Prod.fst := by simp [CLUB_FACTORS]
  exact ⟨⟨hm, (claim_unknown_club ⟨id, id, id⟩ 100 0 0 0 "Driver").2 hm⟩,
    (claim_unknown_club ⟨id, id, id⟩ 100 0 0 0 "Putter").1⟩

/-- C7: with zero elevation change and zero wind speed,
`calculate_adjusted_shot` returns the base distance unchanged and a zero
lateral adjustment, for every club in the factor table and independently
of the wind angle. -/
theorem claim_zero_inputs (M : MathFns) (d θ : ℚ) (club : String)
    (ef wf : ℚ) (h : CLUB_FACTORS.lookup club = some (ef, wf)) :
    calculate_adjusted_shot M d 0 0 θ club = some (d, 0) := by
  simp [calculate_adjusted_shot, h]

/-- Witness for C7: the 7-Iron at base 150 and angle 45. -/
theorem claim_zero_inputs_app :
    CLUB_FACTORS.lookup "7-Iron" = some (0.48, 0.16) ∧
    calculate_adjusted_shot ⟨id, id, id⟩ 150 0 0 45 "7-Iron" = some (150, 0) := by
  have h : CLUB_FACTORS.lookup "7-Iron" = some (0.48, 0.16) := by
    simp [CLUB_FACTORS, List.lookup]
  exact ⟨h, claim_zero_inputs ⟨id, id, id⟩ 150 45 "7-Iron" 0.48 0.16 h⟩

/-- C8: both core functions are deterministic pure functions — two calls
with identical inputs yield identical results.  In the embedding both
are plain functions of their arguments: the source functions read only
the immutable module-level tables and their parameters, and write no
state, so equal inputs force equal outputs. -/
theorem claim_deterministic (M M' : MathFns)
    (b b' e e' w w' θ θ' adj adj' : ℚ) (c c' : String)
    (hM : M = M') (hb : b = b') (he : e = e') (hw : w = w') (hθ : θ = θ')
    (hc : c = c') (hadj : adj = adj') :
    calculate_adjusted_shot M b e w θ c =
      calculate_adjusted_shot M' b' e' w' θ' c' ∧
    suggest_club_and_percentage adj = suggest_club_and_percentage adj' := by
  subst hM hb he hw hθ hc hadj
  exact ⟨rfl, rfl⟩

/-- Witness for C8: two textually identical invocations agree. -/
theorem claim_deterministic_app :
    calculate_adjusted_shot ⟨id, id, id⟩ 100 5 10 45 "Driver" =
      calculate_adjusted_shot ⟨id, id, id⟩ 100 5 10 45 "Driver" ∧
    suggest_club_and_percentage 150 = suggest_club_and_percentage 150 :=
  claim_deterministic ⟨id, id, id⟩ ⟨id, id, id⟩ 100 100 5 5 10 10 45 45 150 150
    "Driver" "Driver" rfl rfl rfl rfl rfl rfl rfl

/-- C2: `suggest_club_and_percentage` works on the table entries sorted
ascending by baseline (a permutation of `CLUB_DISTANCES`), and for every
adjusted distance at most the largest baseline (280) it returns the
first entry whose baseline is ≥ the distance, with percentage
(distance / baseline)·100; in particular at 80 it returns
("Lob Wedge", 100) exactly and at 0 the shortest club with percentage
exactly 0. -/
theorem claim_first_match_scan :
    List.Sorted (fun a b : String × ℚ => a.2 ≤ b.2) sorted_clubs ∧
    sorted_clubs.Perm CLUB_DISTANCES ∧
    (∀ adj : ℚ, adj ≤ 280 →
      ∃ e rest, firstMatch adj sorted_clubs = some (e, rest) ∧
        suggest_club_and_percentage adj = (e.1, adj / e.2 * 100)) ∧
    suggest_club_and_percentage 80 = ("Lob Wedge", 100) ∧
    suggest_club_and_percentage 0 = ("Lob Wedge", 0) := by
  have h80 : firstMatch (80 : ℚ) sorted_clubs = some (("Lob Wedge", 80),
      [("Sand Wedge", 105), ("Pitching Wedge", 110), ("9-Iron", 133),
       ("8-Iron", 149), ("7-Iron", 165), ("6-Iron", 181), ("5-Iron", 197),
       ("4-Iron", 212), ("Hybrid", 225), ("3-Iron", 228), ("3-Wood", 240),
       ("Driver", 280)]) := by
    rw [sorted_clubs_eq]
    norm_num [firstMatch]
  have h0 : firstMatch (0 : ℚ) sorted_clubs = some (("Lob Wedge", 80),
      [("Sand Wedge", 105), ("Pitching Wedge", 110), ("9-Iron", 133),
       ("8-Iron", 149), ("7-Iron", 165), ("6-Iron", 181), ("5-Iron", 197),
       ("4-Iron", 212), ("Hybrid", 225), ("3-Iron", 228), ("3-Wood", 240),
       ("Driver", 280)]) := by
    rw [sorted_clubs_eq]
    norm_num [firstMatch]
  refine ⟨by rw [sorted_clubs_eq]; decide, sorted_clubs_perm, ?_, ?_, ?_⟩
  · intro adj hadj
    obtain ⟨e, rest, hfm⟩ := firstMatch_of_le adj hadj
    exact ⟨e, rest, hfm, suggest_eq_of_firstMatch adj e rest hfm⟩
  · rw [suggest_eq_of_firstMatch 80 _ _ h80]
    norm_num
  · rw [suggest_eq_of_firstMatch 0 _ _ h0]
    norm_num

/-- Witness for C2: the first-match description applied at 150. -/
theorem claim_first_match_scan_app :
    (150 : ℚ) ≤ 280 ∧
    ∃ e rest, firstMatch (150 : ℚ) sorted_clubs = some (e, rest) ∧
      suggest_club_and_percentage 150 = (e.1, 150 / e.2 * 100) :=
  ⟨by norm_num, claim_first_match_scan.2.2.1 150 (by norm_num)⟩

/-- Counterexample to C3: the claimed trigger never occurs.  For no
adjusted distance does the scan's first match (baseline ≥ distance)
produce a percentage over 100 — a match forces
percentage = (distance / baseline)·100 ≤ 100 since every baseline is
positive — so the lookahead branch of src/main.py lines 56-59 is
unreachable. -/
theorem claim_lookahead_reachable_false :
    ¬ ∃ adj : ℚ, edgeCaseFired adj := by
  rintro ⟨adj, e, rest, hfm, -, hpct⟩
  obtain ⟨hle, hmem⟩ := firstMatch_eq_some adj sorted_clubs e rest hfm
  have hpos : (0 : ℚ) < e.2 := clubs_pos e hmem
  have h1 : adj / e.2 ≤ 1 := (div_le_one hpos).mpr hle
  nlinarith

/-- C3 amended: the edge-case branch is dead code.  Whenever the scan
matches (first baseline ≥ adjusted distance), the computed percentage is
at most 100, so the one-step lookahead never fires and
`suggest_club_and_percentage` returns the first matched club with that
percentage unchanged. -/
theorem claim_lookahead_dead (adj : ℚ) (e : String × ℚ)
    (rest : List (String × ℚ))
    (h : firstMatch adj sorted_clubs = some (e, rest)) :
    adj / e.2 * 100 ≤ 100 ∧
    suggest_club_and_percentage adj = (e.1, adj / e.2 * 100) := by
  obtain ⟨hle, hmem⟩ := firstMatch_eq_some adj sorted_clubs e rest h
  have hpos : (0 : ℚ) < e.2 := clubs_pos e hmem
  have h1 : adj / e.2 ≤ 1 := (div_le_one hpos).mpr hle
  exact ⟨by nlinarith, suggest_eq_of_firstMatch adj e rest h⟩

/-- Witness for the amended C3 at adjusted distance 100, whose first
match is the Sand Wedge at baseline 105. -/
theorem claim_lookahead_dead_app :
    firstMatch (100 : ℚ) sorted_clubs = some (("Sand Wedge", 105),
      [("Pitching Wedge", 110), ("9-Iron", 133), ("8-Iron", 149),
       ("7-Iron", 165), ("6-Iron", 181), ("5-Iron", 197), ("4-Iron", 212),
       ("Hybrid", 225), ("3-Iron", 228), ("3-Wood", 240), ("Driver", 280)]) ∧
    ((100 : ℚ) / 105 * 100 ≤ 100 ∧
      suggest_club_and_percentage 100 = ("Sand Wedge", 100 / 105 * 100)) := by
  have h : firstMatch (100 : ℚ) sorted_clubs = some (("Sand Wedge", 105),
      [("Pitching Wedge", 110), ("9-Iron", 133), ("8-Iron", 149),
       ("7-Iron", 165), ("6-Iron", 181), ("5-Iron", 197), ("4-Iron", 212),
       ("Hybrid", 225), ("3-Iron", 228), ("3-Wood", 240), ("Driver", 280)]) := by
    rw [sorted_clubs_eq]
    norm_num [firstMatch]
  exact ⟨h, claim_lookahead_dead 100 ("Sand Wedge", 105) _ h⟩

/-- C4: for every adjusted distance strictly greater than every baseline
in the table, `suggest_club_and_percentage` falls through the scan and
returns the longest-baseline club ("Driver", baseline 280) with
percentage (distance / 280)·100; in particular at 300 it returns
("Driver", 750/7), about 107.14. -/
theorem claim_fallback_longest :
    (∀ adj : ℚ, (∀ b ∈ CLUB_DISTANCES.map Prod.snd, b < adj) →
      suggest_club_and_percentage adj = ("Driver", adj / 280 * 100)) ∧
    suggest_club_and_percentage 300 = ("Driver", 750 / 7) := by
  refine ⟨?_, suggest_300⟩
  intro adj h
  apply suggest_eq_fallback
  rw [firstMatch_eq_none]
  intro e he
  have hmem : e ∈ CLUB_DISTANCES := sorted_clubs_perm.mem_iff.mp he
  exact not_le.mpr (h e.2 (List.mem_map_of_mem Prod.snd hmem))

/-- Witness for C4 at 300, which exceeds every baseline. -/
theorem claim_fallback_longest_app :
    (∀ b ∈ CLUB_DISTANCES.map Prod.snd, b < (300 : ℚ)) ∧
    suggest_club_and_percentage 300 = ("Driver", (300 : ℚ) / 280 * 100) :=
  ⟨by decide, claim_fallback_longest.1 300 (by decide)⟩

/-- C5: the club returned by `suggest_club_and_percentage` is always a
key of `CLUB_DISTANCES`, and the returned percentage exceeds 100 only
when the longest-club fallback applies (the adjusted distance exceeds
the longest baseline, 280) or the one-step-lookahead edge case fired. -/
theorem claim_output_guarantee (adj : ℚ) :
    (suggest_club_and_percentage adj).1 ∈ CLUB_DISTANCES.map Prod.fst ∧
    (100 < (suggest_club_and_percentage adj).2 →
      280 < adj ∨ edgeCaseFired adj) := by
  rcases hfm : firstMatch adj sorted_clubs with _ | ⟨p, rest⟩
  · have hs := suggest_eq_fallback adj hfm
    rw [hs]
    constructor
    · show "Driver" ∈ CLUB_DISTANCES.map Prod.fst
      decide
    · intro hpct
      have hpct' : (100 : ℚ) < adj / 280 * 100 := hpct
      left
      by_contra hnot
      push_neg at hnot
      have h1 : adj / 280 ≤ 1 := (div_le_one (by norm_num)).mpr hnot
      nlinarith
  · obtain ⟨hle, hmem⟩ := firstMatch_eq_some adj sorted_clubs p rest hfm
    have hpos : (0 : ℚ) < p.2 := clubs_pos p hmem
    have hs := suggest_eq_of_firstMatch adj p rest hfm
    rw [hs]
    constructor
    · show p.1 ∈ CLUB_DISTANCES.map Prod.fst
      exact List.mem_map_of_mem Prod.fst (sorted_clubs_perm.mem_iff.mp hmem)
    · intro hpct
      have hpct' : (100 : ℚ) < adj / p.2 * 100 := hpct
      have h1 : adj / p.2 ≤ 1 := (div_le_one hpos).mpr hle
      exact absurd hpct' (by nlinarith)

/-- Witness for C5 at 300: the returned club is a table key, and the
over-100 percentage there is accounted for by the fallback disjunct. -/
theorem claim_output_guarantee_app :
    (suggest_club_and_percentage 300).1 ∈ CLUB_DISTANCES.map Prod.fst ∧
    (280 < (300 : ℚ) ∨ edgeCaseFired 300) :=
  ⟨(claim_output_guarantee 300).1,
   (claim_output_guarantee 300).2 (by rw [suggest_300]; norm_num)⟩

/-- C9: `suggest_club_and_percentage` is total — it is a function
returning a pair for every rational input — and the percentage it
returns is always (input / b)·100 for some baseline b drawn from the
fixed table, every one of which is strictly positive, so no division by
zero can occur; the returned club is likewise a table key. -/
theorem claim_total_positive_div (adj : ℚ) :
    ∃ b : ℚ, b ∈ CLUB_DISTANCES.map Prod.snd ∧ 0 < b ∧
      (suggest_club_and_percentage adj).2 = adj / b * 100 ∧
      (suggest_club_and_percentage adj).1 ∈ CLUB_DISTANCES.map Prod.fst := by
  rcases hfm : firstMatch adj sorted_clubs with _ | ⟨p, rest⟩
  · refine ⟨280, by decide, by norm_num, ?_, ?_⟩
    · rw [suggest_eq_fallback adj hfm]
    · rw [suggest_eq_fallback adj hfm]
      show "Driver" ∈ CLUB_DISTANCES.map Prod.fst
      decide
  · obtain ⟨hle, hmem⟩ := firstMatch_eq_some adj sorted_clubs p rest hfm
    have hmem' : p ∈ CLUB_DISTANCES := sorted_clubs_perm.mem_iff.mp hmem
    refine ⟨p.2, List.mem_map_of_mem Prod.snd hmem', clubs_pos p hmem, ?_, ?_⟩
    · rw [suggest_eq_of_firstMatch adj p rest hfm]
    · rw [suggest_eq_of_firstMatch adj p rest hfm]
      show p.1 ∈ CLUB_DISTANCES.map Prod.fst
      exact List.mem_map_of_mem Prod.fst hmem'

/-- C10: for every strictly negative adjusted distance, the scan matches
the shortest club immediately, so `suggest_club_and_percentage` returns
("Lob Wedge", baseline 80) with percentage (distance / 80)·100, which is
strictly negative — outside the normally 0-100 range. -/
theorem claim_negative_distance (adj : ℚ) (h : adj < 0) :
    suggest_club_and_percentage adj = ("Lob Wedge", adj / 80 * 100) ∧
    adj / 80 * 100 < 0 := by
  have hle : adj ≤ 80 := le_of_lt (lt_of_lt_of_le h (by norm_num))
  have hfm : firstMatch adj sorted_clubs = some (("Lob Wedge", 80),
      [("Sand Wedge", 105), ("Pitching Wedge", 110), ("9-Iron", 133),
       ("8-Iron", 149), ("7-Iron", 165), ("6-Iron", 181), ("5-Iron", 197),
       ("4-Iron", 212), ("Hybrid", 225), ("3-Iron", 228), ("3-Wood", 240),
       ("Driver", 280)]) := by
    rw [sorted_clubs_eq]
    simp [firstMatch, hle]
  constructor
  · exact suggest_eq_of_firstMatch adj _ _ hfm
  · have h1 : adj / 80 < 0 := div_neg_of_neg_of_pos h (by norm_num)
    nlinarith

/-- Witness for C10 at -10. -/
theorem claim_negative_distance_app :
    (-10 : ℚ) < 0 ∧
    (suggest_club_and_percentage (-10) = ("Lob Wedge", (-10 : ℚ) / 80 * 100) ∧
      (-10 : ℚ) / 80 * 100 < 0) :=
  ⟨by norm_num, claim_negative_distance (-10) (by norm_num)⟩

end WGTCalc
